import Mathlib

/-!
Shallow embedding of the original application layer of the
`pandas-ai-integration` repository:

* `src/datastructure/aidDataframe.py` — class `AIDataFrame` (prompt builders,
  `execute_python`, `query_dataframe`, `plot_dataframe`, `manipulate_dataframe`,
  `clean_dataframe`);
* `src/prompts/error_correction_prompt.py` — class `ErrorCorrectionPrompt`;
* `src/functions/chat_with_df.py` — class `ChatWithPandas` (`forward`).

A dataframe is modelled as a list of column names plus rows of cells, each
cell already rendered to the string pandas would print for it.  External
effects (the remote chat-completion API, the dynamic `import` of the
generated source and the call of the loaded function) are modelled by an
explicit oracle `Env`; the filesystem state that the code manipulates
(`tmp.py`, `cleaned_df.csv`) is threaded explicitly.  Python exceptions are
modelled with `Except PyErr`.
-/

set_option autoImplicit false
set_option maxRecDepth 20000

/-- A Python exception, as far as the embedded code distinguishes them. -/
inductive PyErr where
  | typeError : PyErr
  | indexError : PyErr
  | nameError : PyErr
  | other : String → PyErr
deriving DecidableEq, Repr

/-- An in-memory pandas dataframe: column names plus rows of cells, each cell
already rendered to the string pandas prints for it. -/
structure PyDataFrame where
  columns : List String
  rows : List (List String)
deriving DecidableEq, Repr

/-- A Python runtime value, as far as the embedded code distinguishes them:
a string, a dataframe, or `None`. -/
inductive PyValue where
  | str : String → PyValue
  | pdf : PyDataFrame → PyValue
  | noneV : PyValue
deriving DecidableEq, Repr

/-- The filesystem state touched by the embedded code: the contents of
`tmp.py` when that file exists, and likewise `cleaned_df.csv`. -/
structure FS where
  tmpPy : Option String
  cleanedCsv : Option String
deriving DecidableEq, Repr

/-- The initial filesystem: neither `tmp.py` nor `cleaned_df.csv` exists. -/
def fs0 : FS := ⟨Option.none, Option.none⟩

/-- The external-effect oracle.
`complete prompt` models `openai.ChatCompletion.create(...)` followed by
`completion.choices[0].message.content`: it may raise, otherwise it yields
the generated source text.
`loadAndCall code fname df` models `from tmp import fname; fname(df)` after
`code` was written to `tmp.py`: either the import or the invocation may
raise, otherwise it yields the function's return value. -/
structure Env where
  complete : String → Except PyErr String
  loadAndCall : String → String → PyDataFrame → Except PyErr PyValue

/-- `collapseSpacesAux prevSp l` replaces every maximal run of spaces in `l`
by a single space; `prevSp` records whether the previous character kept was
part of a space run. -/
def collapseSpacesAux : Bool → List Char → List Char
  | _, [] => []
  | prevSp, c :: rest =>
    if c = ' ' then
      if prevSp then collapseSpacesAux true rest
      else ' ' :: collapseSpacesAux true rest
    else c :: collapseSpacesAux false rest

/-- `re.sub(' +', ' ', s)`: replace every run of one or more spaces by a
single space. -/
def collapseSpaces (s : String) : String := ⟨collapseSpacesAux false s.data⟩

/-- `listPrefix p l` decides whether `p` is an initial segment of `l`. -/
def listPrefix : List Char → List Char → Bool
  | [], _ => true
  | _ :: _, [] => false
  | a :: as, b :: bs => if a = b then listPrefix as bs else false

/-- `listContainsSub p l` decides whether `p` occurs as a contiguous
subsequence of `l`. -/
def listContainsSub (p : List Char) : List Char → Bool
  | [] => p.isEmpty
  | c :: rest => listPrefix p (c :: rest) || listContainsSub p rest

/-- `strContains s p` decides whether the string `p` occurs as a contiguous
substring of `s`. -/
def strContains (s p : String) : Bool := listContainsSub p.data s.data

/-- Python `repr` of a string (faithful for strings without quotes,
backslashes or control characters, which is all the code ever reprs). -/
def pyStrRepr (s : String) : String := "'" ++ s ++ "'"

/-- Python `str(list_of_strings)`, e.g. `['gear', 'name']`. -/
def pyListRepr (xs : List String) : String :=
  "[" ++ String.intercalate ", " (xs.map pyStrRepr) ++ "]"

/-- How a Python `Optional[int]` renders inside an f-string: a number, or
the text `None`. -/
def pyOptNat : Option Nat → String
  | Option.some n => toString n
  | Option.none => "None"

/-- One CSV line per row, each prefixed with its positional index, as
pandas `to_csv` prints a default `RangeIndex`. -/
def rowsCsv (rows : List (List String)) : String :=
  String.join (rows.enum.map fun p => toString p.1 ++ "," ++ String.intercalate "," p.2 ++ "\n")

/-- `DataFrame.to_csv()`: an empty index-label cell, the column names, a
newline, then one indexed line per row (faithful for cells without commas,
quotes or newlines). -/
def PyDataFrame.to_csv (d : PyDataFrame) : String :=
  "," ++ String.intercalate "," d.columns ++ "\n" ++ rowsCsv d.rows

/-- `df.iloc[0:2].to_csv()`: the CSV serialization of the first two rows. -/
def PyDataFrame.head2csv (d : PyDataFrame) : String :=
  PyDataFrame.to_csv ⟨d.columns, d.rows.take 2⟩

/-- `df.iloc[i, j]` when it exists. -/
def PyDataFrame.cell (d : PyDataFrame) (i j : Nat) : Option String :=
  (d.rows.get? i).bind (fun r => r.get? j)

/-- `df.drop([0,0], axis=1)` as used by `ChatWithPandas.forward`: drop the
first column. -/
def PyDataFrame.dropCol0 (d : PyDataFrame) : PyDataFrame :=
  ⟨d.columns.drop 1, d.rows.map (List.drop 1)⟩

/-- Rendering of `str(value)` as interpolated by an f-string.  For a
dataframe Python prints a text table; its precise layout does not matter to
any property below, so it is abstracted by the CSV rendering. -/
def pyStr : PyValue → String
  | PyValue.str s => s
  | PyValue.pdf d => PyDataFrame.to_csv d
  | PyValue.noneV => "None"

/-- The state of one `AIDataFrame` instance after `__init__`. -/
structure AIDataFrame where
  pd_df : PyDataFrame
  is_df_loaded : Bool
  description : Option String
  name : Option String

/-- `AIDataFrame.__init__(df, config=None, description=None, name=None)`:
wraps `df` and sets `is_df_loaded` to whether `len(df) > 0`. -/
def AIDataFrame.init (df : PyDataFrame) (description : Option String)
    (name : Option String) : AIDataFrame :=
  { pd_df := df
    is_df_loaded := decide (0 < df.rows.length)
    description := description
    name := name }

/-- Property `col_count`: the number of columns when the dataframe is
loaded, Python `None` otherwise. -/
def AIDataFrame.col_count (self : AIDataFrame) : Option Nat :=
  if self.is_df_loaded then Option.some self.pd_df.columns.length else Option.none

/-- Property `row_count`: the number of rows when the dataframe is loaded,
Python `None` otherwise. -/
def AIDataFrame.row_count (self : AIDataFrame) : Option Nat :=
  if self.is_df_loaded then Option.some self.pd_df.rows.length else Option.none

/-- Property `sample_head_csv`: `self.pd_df.head(5).to_csv()` when the
dataframe is loaded, Python `None` otherwise. -/
def AIDataFrame.sample_head_csv (self : AIDataFrame) : Option String :=
  if self.is_df_loaded then
    Option.some (PyDataFrame.to_csv ⟨self.pd_df.columns, self.pd_df.rows.take 5⟩)
  else Option.none

/-- Shared leading segment of the four f-string templates in
`aidDataframe.py` (source-line continuations leave the runs of spaces). -/
def tplHead : String :=
  "I need you to write a python3.8 program for the following dataframe.             You are given the following pandas dataframe.             The dataframe has "

/-- Segment between `{self.col_count}` and `{list(self.columns)}`. -/
def tplColsSeg : String := " columns. The columns are "

/-- Segment between `{list(self.columns)}` and `{self.iloc[0:2].to_csv()}`. -/
def tplCsvSeg : String :=
  ".             The first 2 rows of data in the csv format are "

/-- Segment of `create_query_prompt` between the CSV sample and `{query}`. -/
def tplQueryMid : String :=
  " .            Give me the python code for the following query: "

/-- Tail of `create_query_prompt`, after `{query}`. -/
def tplQueryTail : String :=
  ".            Write this code in a function named 'pandas_query_function' and it should take the pandas dataframe as input.             Do not create a new dataframe. assume that it is given as input to the function.            Output of the function should be a string. Add the required imports for the function.             Print the output in the format query: result in the function.            Do not add any code for example usage to execute the function. Write only the function code.            The response should have only the python code and no additional text.             I repeat.. give the python code only for the function. NO ADDITIONAL CODE."

/-- Segment of `create_plot_prompt` between the CSV sample and `{plot_req}`. -/
def tplPlotMid : String :=
  " .            Give me the python code to create the following plot: "

/-- Tail of `create_plot_prompt`, after `{plot_req}`. -/
def tplPlotTail : String :=
  ".            Write this code in a function named 'pandas_plot_function' and it should take the pandas dataframe as input.             Do not create a new dataframe. assume that it is given as input to the function.            Save the output plot to a file named plot.png. do not return anything.            Add the required imports for the function.             Do not add any code for example usage to execute the function. Write only the function code.            The response should have only the python code and no additional text.             I repeat.. give the python code only for the function. NO ADDITIONAL CODE."

/-- Segment of `create_manipulation_prompt` between the CSV sample and
`{manipulation}`. -/
def tplManipMid : String :=
  " .            Give me the python code to perform the following manipulation: "

/-- Tail of `create_manipulation_prompt`, after `{manipulation}`. -/
def tplManipTail : String :=
  ".            Write this code in a function named 'pandas_manipulation_function' and it should take the pandas dataframe as input.             Do not create a new dataframe. assume that it is given as input to the function.            The output should be the dataframe after the manipulations are done.            Add the required imports for the function.             Do not add any code for example usage to execute the function. Write only the function code.            The response should have only the python code and no additional text.             I repeat.. give the python code only for the function. NO ADDITIONAL CODE."

/-- Segment of `create_data_cleaning_prompt` between the CSV sample and
`{clean_query}`. -/
def tplCleanMid : String :=
  " .            Give me the python code to perform the following data cleaning: "

/-- Tail of `create_data_cleaning_prompt`, after `{clean_query}`. -/
def tplCleanTail : String :=
  ".            Write this code in a function named 'pandas_clean_function' and it should take the pandas dataframe as input.             Do not create a new dataframe. assume that it is given as input to the function.            The output should be the dataframe after the cleaning are done.            Add the required imports for the function.             Do not add any code for example usage to execute the function. Write only the function code.            The response should have only the python code and no additional text.             I repeat.. give the python code only for the function. NO ADDITIONAL CODE."

/-- The f-string of `create_query_prompt` before `re.sub` is applied. -/
def AIDataFrame.raw_query_prompt (self : AIDataFrame) (query : String) : String :=
  tplHead ++ pyOptNat self.col_count ++ tplColsSeg ++ pyListRepr self.pd_df.columns ++
    tplCsvSeg ++ self.pd_df.head2csv ++ tplQueryMid ++ query ++ tplQueryTail

/-- `AIDataFrame.create_query_prompt`: render the query template, then
`re.sub(' +', ' ', prompt)`. -/
def AIDataFrame.create_query_prompt (self : AIDataFrame) (query : String) : String :=
  collapseSpaces (self.raw_query_prompt query)

/-- The f-string of `create_plot_prompt` before `re.sub` is applied. -/
def AIDataFrame.raw_plot_prompt (self : AIDataFrame) (plot_req : String) : String :=
  tplHead ++ pyOptNat self.col_count ++ tplColsSeg ++ pyListRepr self.pd_df.columns ++
    tplCsvSeg ++ self.pd_df.head2csv ++ tplPlotMid ++ plot_req ++ tplPlotTail

/-- `AIDataFrame.create_plot_prompt`: render the plot template, then
`re.sub(' +', ' ', prompt)`. -/
def AIDataFrame.create_plot_prompt (self : AIDataFrame) (plot_req : String) : String :=
  collapseSpaces (self.raw_plot_prompt plot_req)

/-- The f-string of `create_manipulation_prompt` before `re.sub`. -/
def AIDataFrame.raw_manipulation_prompt (self : AIDataFrame) (manipulation : String) : String :=
  tplHead ++ pyOptNat self.col_count ++ tplColsSeg ++ pyListRepr self.pd_df.columns ++
    tplCsvSeg ++ self.pd_df.head2csv ++ tplManipMid ++ manipulation ++ tplManipTail

/-- `AIDataFrame.create_manipulation_prompt`: render the manipulation
template, then `re.sub(' +', ' ', prompt)`. -/
def AIDataFrame.create_manipulation_prompt (self : AIDataFrame) (manipulation : String) : String :=
  collapseSpaces (self.raw_manipulation_prompt manipulation)

/-- `AIDataFrame.create_data_cleaning_prompt`: render the cleaning
template.  Unlike the other three builders, this method applies no
`re.sub`; the raw rendering is returned as-is. -/
def AIDataFrame.create_data_cleaning_prompt (self : AIDataFrame) (clean_query : String) : String :=
  tplHead ++ pyOptNat self.col_count ++ tplColsSeg ++ pyListRepr self.pd_df.columns ++
    tplCsvSeg ++ self.pd_df.head2csv ++ tplCleanMid ++ clean_query ++ tplCleanTail

/-- `AIDataFrame.execute_python(python_code, type)`: per branch, write
`python_code` to `tmp.py`, import the branch's conventional function name
from it and call it on `self.pd_df`; only after a successful call remove
`tmp.py` and return.  An exception from the import or the call propagates
with `tmp.py` still present.  When no branch matches, the Python function
body falls through and returns `None` without touching the filesystem. -/
def AIDataFrame.execute_python (env : Env) (self : AIDataFrame)
    (python_code : String) (type : String) (fs : FS) : Except PyErr PyValue × FS :=
  if type = "query" then
    let fs1 : FS := { fs with tmpPy := Option.some python_code }
    match env.loadAndCall python_code "pandas_query_function" self.pd_df with
    | Except.error e => (Except.error e, fs1)
    | Except.ok answer => (Except.ok answer, { fs1 with tmpPy := Option.none })
  else if type = "plot" then
    let fs1 : FS := { fs with tmpPy := Option.some python_code }
    match env.loadAndCall python_code "pandas_plot_function" self.pd_df with
    | Except.error e => (Except.error e, fs1)
    | Except.ok _ =>
        (Except.ok (PyValue.str "Your plot is stored in plot.png"), { fs1 with tmpPy := Option.none })
  else if type = "manipulation" then
    let fs1 : FS := { fs with tmpPy := Option.some python_code }
    match env.loadAndCall python_code "pandas_manipulation_function" self.pd_df with
    | Except.error e => (Except.error e, fs1)
    | Except.ok output => (Except.ok output, { fs1 with tmpPy := Option.none })
  else if type = "data_cleaning" then
    let fs1 : FS := { fs with tmpPy := Option.some python_code }
    match env.loadAndCall python_code "pandas_clean_function" self.pd_df with
    | Except.error e => (Except.error e, fs1)
    | Except.ok output => (Except.ok output, { fs1 with tmpPy := Option.none })
  else if type = "image_analysis" then
    let fs1 : FS := { fs with tmpPy := Option.some python_code }
    match env.loadAndCall python_code "pandas_clean_function" self.pd_df with
    | Except.error e => (Except.error e, fs1)
    | Except.ok output => (Except.ok output, { fs1 with tmpPy := Option.none })
  else
    (Except.ok PyValue.noneV, fs)

/-- The outcome of one request-path call: the returned value or propagated
exception, the filesystem afterwards, and the prompts sent to the remote
completion API, in order. -/
structure CallResult (α : Type) where
  result : Except PyErr α
  fs : FS
  sent : List String

/-- `AIDataFrame.query_dataframe(query)`: build the query prompt, send it to
the remote completion API, execute the returned code with `execute_python`
under the `"query"` tag, and wrap the answer as
`"Question is {query} and Answer is {answer}"`. -/
def AIDataFrame.query_dataframe (env : Env) (self : AIDataFrame)
    (query : String) (fs : FS) : CallResult String :=
  let prompt := self.create_query_prompt query
  match env.complete prompt with
  | Except.error e => ⟨Except.error e, fs, [prompt]⟩
  | Except.ok python_code =>
    match self.execute_python env python_code "query" fs with
    | (Except.error e, fs1) => ⟨Except.error e, fs1, [prompt]⟩
    | (Except.ok answer, fs1) =>
        ⟨Except.ok ("Question is " ++ query ++ " and Answer is " ++ pyStr answer), fs1, [prompt]⟩

/-- `AIDataFrame.plot_dataframe(plot_query)`: build the plot prompt, send it
to the remote completion API, execute the returned code under the `"plot"`
tag, and return the fixed location string. -/
def AIDataFrame.plot_dataframe (env : Env) (self : AIDataFrame)
    (plot_query : String) (fs : FS) : CallResult String :=
  let prompt := self.create_plot_prompt plot_query
  match env.complete prompt with
  | Except.error e => ⟨Except.error e, fs, [prompt]⟩
  | Except.ok python_code =>
    match self.execute_python env python_code "plot" fs with
    | (Except.error e, fs1) => ⟨Except.error e, fs1, [prompt]⟩
    | (Except.ok _, fs1) =>
        ⟨Except.ok "please find the plot in the file plot.png", fs1, [prompt]⟩

/-- `AIDataFrame.manipulate_dataframe(manipulation_query)`: build the
manipulation prompt, send it, execute the returned code under the
`"manipulation"` tag, and return the executor's output. -/
def AIDataFrame.manipulate_dataframe (env : Env) (self : AIDataFrame)
    (manipulation_query : String) (fs : FS) : CallResult PyValue :=
  let prompt := self.create_manipulation_prompt manipulation_query
  match env.complete prompt with
  | Except.error e => ⟨Except.error e, fs, [prompt]⟩
  | Except.ok python_code =>
    match self.execute_python env python_code "manipulation" fs with
    | (Except.error e, fs1) => ⟨Except.error e, fs1, [prompt]⟩
    | (Except.ok answer, fs1) => ⟨Except.ok answer, fs1, [prompt]⟩

/-- `AIDataFrame.clean_dataframe(clean_instructions)`: build the cleaning
prompt, send it, execute the returned code under the `"data_cleaning"` tag,
and return the executor's output. -/
def AIDataFrame.clean_dataframe (env : Env) (self : AIDataFrame)
    (clean_instructions : String) (fs : FS) : CallResult PyValue :=
  let prompt := self.create_data_cleaning_prompt clean_instructions
  match env.complete prompt with
  | Except.error e => ⟨Except.error e, fs, [prompt]⟩
  | Except.ok python_code =>
    match self.execute_python env python_code "data_cleaning" fs with
    | (Except.error e, fs1) => ⟨Except.error e, fs1, [prompt]⟩
    | (Except.ok answer, fs1) => ⟨Except.ok answer, fs1, [prompt]⟩

/-- `ErrorCorrectionPrompt.get_prompt(df, user_question, error, python_code)`
from `src/prompts/error_correction_prompt.py`.  `dfRepr` is the text Python
renders for `{df}`. -/
def ErrorCorrectionPrompt.get_prompt (dfRepr user_question error python_code : String) : String :=
  "\n        Given the following pandas dataframe " ++ dfRepr ++
    ", and the following question was asked " ++ user_question ++
    ".\n        The following python code was generated : " ++ python_code ++
    ".\n        This code gave the following error: " ++ error ++
    ".\n        Correct the python code and return a new python code (do not import anything) that fixes the above mentioned error. \n        Do not generate the same code again.\n        "

/-- Python positional-call semantics for the method
`def plot_dataframe(self, plot_query)`: a call supplying any number of
arguments other than one raises `TypeError` before the method body runs. -/
def pyCallPlotDataframe (env : Env) (self : AIDataFrame) (args : List String)
    (fs : FS) : CallResult String :=
  match args with
  | [plot_query] => self.plot_dataframe env plot_query fs
  | _ => ⟨Except.error PyErr.typeError, fs, []⟩

/-- The one-column response dataframe `pd.DataFrame({"response": [response]})`
that `ChatWithPandas.forward` returns. -/
def mkRespDf (response : String) : PyDataFrame := ⟨["response"], [[response]]⟩

/-- `ChatWithPandas.forward(df)` from `src/functions/chat_with_df.py`:
read `query = df.iloc[0,1]` and `type = df.iloc[0,0]` (an `IndexError` when
absent), drop the first column, wrap the rest in an `AIDataFrame` with the
fixed description, and dispatch: a first `if` handles `"cleaning"` (clean,
write `cleaned_df.csv`, fixed response text), a second `if/elif` chain
handles `"query"`, `"plot"` (which also reads `plot_type = df.iloc[0,2]` and
then calls `plot_dataframe` with TWO positional arguments) and
`"manipulation"`; any other tag leaves `response` unassigned, so building
the response dict raises `NameError`. -/
def ChatWithPandas.forward (env : Env) (df : PyDataFrame) (fs : FS) :
    Except PyErr PyDataFrame × FS × List String :=
  match df.cell 0 1, df.cell 0 0 with
  | Option.some query, Option.some type =>
    let req_df := df.dropCol0
    let smart_df := AIDataFrame.init req_df (Option.some "A dataframe about cars") Option.none
    if type = "cleaning" then
      let r := smart_df.clean_dataframe env query fs
      match r.result with
      | Except.error e => (Except.error e, r.fs, r.sent)
      | Except.ok v =>
        match v with
        | PyValue.pdf cleaned_df =>
            ((Except.ok (mkRespDf "cleaned dataframe is saved to cleaned_df.csv")),
              { r.fs with cleanedCsv := Option.some cleaned_df.to_csv }, r.sent)
        | _ => (Except.error (PyErr.other "AttributeError"), r.fs, r.sent)
    else if type = "query" then
      let r := smart_df.query_dataframe env query fs
      match r.result with
      | Except.error e => (Except.error e, r.fs, r.sent)
      | Except.ok response => (Except.ok (mkRespDf response), r.fs, r.sent)
    else if type = "plot" then
      match df.cell 0 2 with
      | Option.none => (Except.error PyErr.indexError, fs, [])
      | Option.some plot_type =>
        let r := pyCallPlotDataframe env smart_df [query, plot_type] fs
        match r.result with
        | Except.error e => (Except.error e, r.fs, r.sent)
        | Except.ok response => (Except.ok (mkRespDf response), r.fs, r.sent)
    else if type = "manipulation" then
      let r := smart_df.manipulate_dataframe env query fs
      match r.result with
      | Except.error e => (Except.error e, r.fs, r.sent)
      | Except.ok v => (Except.ok (mkRespDf (pyStr v)), r.fs, r.sent)
    else
      (Except.error PyErr.nameError, fs, [])
  | _, _ => (Except.error PyErr.indexError, fs, [])

/-- Concrete two-column dataframe used by the end-to-end example: columns
`[gear, name]` with two rows. -/
def df0 : PyDataFrame := ⟨["gear", "name"], [["4", "mazda"], ["5", "ferrari"]]⟩

/-- The wrapper around `df0`. -/
def ai0 : AIDataFrame := AIDataFrame.init df0 Option.none Option.none

/-- A dataframe with a column but no rows. -/
def dfEmpty : PyDataFrame := ⟨["gear"], []⟩

/-- An oracle on which every external effect succeeds: the remote API
returns the source text `"CODE"` and the loaded function returns the string
`"42"`. -/
def envOk : Env :=
  ⟨fun _ => Except.ok "CODE", fun _ _ _ => Except.ok (PyValue.str "42")⟩

/-- An oracle on which the remote API succeeds but the dynamic import/call
of the generated code raises. -/
def envFail : Env :=
  ⟨fun _ => Except.ok "CODE", fun _ _ _ => Except.error (PyErr.other "boom")⟩

/-- A one-row input for `ChatWithPandas.forward` whose task-kind tag is
`"plot"`. -/
def dfPlotReq : PyDataFrame := ⟨["c0", "c1", "c2"], [["plot", "plot mpg vs hp", "bar"]]⟩

theorem listPrefix_self_append (p t : List Char) : listPrefix p (p ++ t) = true := by
  induction p with
  | nil => rfl
  | cons a as ih => simpa [listPrefix] using ih

theorem listContainsSub_nil (l : List Char) : listContainsSub [] l = true := by
  induction l with
  | nil => rfl
  | cons c cs ih => simp [listContainsSub, listPrefix]

theorem listContainsSub_prefix (p t : List Char) : listContainsSub p (p ++ t) = true := by
  cases p with
  | nil => exact listContainsSub_nil t
  | cons c cs =>
    have hp : listPrefix (c :: cs) ((c :: cs) ++ t) = true := listPrefix_self_append (c :: cs) t
    simp only [List.cons_append] at hp ⊢
    simp [listContainsSub, hp]

theorem listContainsSub_mid (a p b : List Char) : listContainsSub p (a ++ (p ++ b)) = true := by
  induction a with
  | nil => exact listContainsSub_prefix p b
  | cons x xs ih => simp [listContainsSub, ih]

theorem strData_append (s t : String) : (s ++ t).data = s.data ++ t.data := by
  cases s; cases t; rfl

theorem strContains_mid (a p b : String) : strContains (a ++ p ++ b) p = true := by
  show listContainsSub p.data (a ++ p ++ b).data = true
  rw [strData_append, strData_append, List.append_assoc]
  exact listContainsSub_mid a.data p.data b.data

theorem strAppend_assoc (a b c : String) : a ++ b ++ c = a ++ (b ++ c) := by
  cases a with
  | mk la =>
    cases b with
    | mk lb =>
      cases c with
      | mk lc => exact congrArg String.mk (List.append_assoc la lb lc)

theorem strContains_of_eq (s a p b : String) (h : s = a ++ p ++ b) :
    strContains s p = true := h ▸ strContains_mid a p b

theorem query_dataframe_sent_eq (env : Env) (self : AIDataFrame) (q : String) (fs : FS) :
    (self.query_dataframe env q fs).sent = [self.create_query_prompt q] := by
  cases hc : env.complete (self.create_query_prompt q) with
  | error e => simp [AIDataFrame.query_dataframe, hc]
  | ok code =>
    rcases hx : self.execute_python env code "query" fs with ⟨res, fs1⟩
    cases res <;> simp [AIDataFrame.query_dataframe, hc, hx]

theorem plot_dataframe_sent_eq (env : Env) (self : AIDataFrame) (q : String) (fs : FS) :
    (self.plot_dataframe env q fs).sent = [self.create_plot_prompt q] := by
  cases hc : env.complete (self.create_plot_prompt q) with
  | error e => simp [AIDataFrame.plot_dataframe, hc]
  | ok code =>
    rcases hx : self.execute_python env code "plot" fs with ⟨res, fs1⟩
    cases res <;> simp [AIDataFrame.plot_dataframe, hc, hx]

theorem manipulate_dataframe_sent_eq (env : Env) (self : AIDataFrame) (q : String) (fs : FS) :
    (self.manipulate_dataframe env q fs).sent = [self.create_manipulation_prompt q] := by
  cases hc : env.complete (self.create_manipulation_prompt q) with
  | error e => simp [AIDataFrame.manipulate_dataframe, hc]
  | ok code =>
    rcases hx : self.execute_python env code "manipulation" fs with ⟨res, fs1⟩
    cases res <;> simp [AIDataFrame.manipulate_dataframe, hc, hx]

theorem clean_dataframe_sent_eq (env : Env) (self : AIDataFrame) (q : String) (fs : FS) :
    (self.clean_dataframe env q fs).sent = [self.create_data_cleaning_prompt q] := by
  cases hc : env.complete (self.create_data_cleaning_prompt q) with
  | error e => simp [AIDataFrame.clean_dataframe, hc]
  | ok code =>
    rcases hx : self.execute_python env code "data_cleaning" fs with ⟨res, fs1⟩
    cases res <;> simp [AIDataFrame.clean_dataframe, hc, hx]

theorem ec_prompt_head (a b c d : String) :
    (ErrorCorrectionPrompt.get_prompt a b c d).data.head? = Option.some '\n' := rfl

theorem query_prompt_head (self : AIDataFrame) (q : String) :
    (self.create_query_prompt q).data.head? = Option.some 'I' := rfl

theorem plot_prompt_head (self : AIDataFrame) (q : String) :
    (self.create_plot_prompt q).data.head? = Option.some 'I' := rfl

theorem manipulation_prompt_head (self : AIDataFrame) (q : String) :
    (self.create_manipulation_prompt q).data.head? = Option.some 'I' := rfl

theorem cleaning_prompt_head (self : AIDataFrame) (q : String) :
    (self.create_data_cleaning_prompt q).data.head? = Option.some 'I' := rfl

theorem ec_prompt_ne_of_head {p : String} (a b c d : String)
    (h : p.data.head? = Option.some 'I') : ErrorCorrectionPrompt.get_prompt a b c d ≠ p := by
  intro heq
  have h2 := congrArg (fun s : String => s.data.head?) heq
  simp only at h2
  rw [ec_prompt_head, h] at h2
  exact absurd (Option.some.inj h2) (by decide)

theorem query_dataframe_err_prop (env : Env) (self : AIDataFrame) (q : String) (fs : FS)
    (code : String) (e : PyErr)
    (hc : env.complete (self.create_query_prompt q) = Except.ok code)
    (hl : env.loadAndCall code "pandas_query_function" self.pd_df = Except.error e) :
    (self.query_dataframe env q fs).result = Except.error e := by
  have hx : self.execute_python env code "query" fs
      = (Except.error e, { fs with tmpPy := Option.some code }) := by
    simp [AIDataFrame.execute_python, hl]
  simp [AIDataFrame.query_dataframe, hc, hx]

theorem plot_dataframe_err_prop (env : Env) (self : AIDataFrame) (q : String) (fs : FS)
    (code : String) (e : PyErr)
    (hc : env.complete (self.create_plot_prompt q) = Except.ok code)
    (hl : env.loadAndCall code "pandas_plot_function" self.pd_df = Except.error e) :
    (self.plot_dataframe env q fs).result = Except.error e := by
  have hx : self.execute_python env code "plot" fs
      = (Except.error e, { fs with tmpPy := Option.some code }) := by
    simp [AIDataFrame.execute_python, hl]
  simp [AIDataFrame.plot_dataframe, hc, hx]

theorem manipulate_dataframe_err_prop (env : Env) (self : AIDataFrame) (q : String) (fs : FS)
    (code : String) (e : PyErr)
    (hc : env.complete (self.create_manipulation_prompt q) = Except.ok code)
    (hl : env.loadAndCall code "pandas_manipulation_function" self.pd_df = Except.error e) :
    (self.manipulate_dataframe env q fs).result = Except.error e := by
  have hx : self.execute_python env code "manipulation" fs
      = (Except.error e, { fs with tmpPy := Option.some code }) := by
    simp [AIDataFrame.execute_python, hl]
  simp [AIDataFrame.manipulate_dataframe, hc, hx]

theorem clean_dataframe_err_prop (env : Env) (self : AIDataFrame) (q : String) (fs : FS)
    (code : String) (e : PyErr)
    (hc : env.complete (self.create_data_cleaning_prompt q) = Except.ok code)
    (hl : env.loadAndCall code "pandas_clean_function" self.pd_df = Except.error e) :
    (self.clean_dataframe env q fs).result = Except.error e := by
  have hx : self.execute_python env code "data_cleaning" fs
      = (Except.error e, { fs with tmpPy := Option.some code }) := by
    simp [AIDataFrame.execute_python, hl]
  simp [AIDataFrame.clean_dataframe, hc, hx]

/-- C1: in `AIDataFrame.execute_python`, every one of the five task-kind
branches removes `tmp.py` only after a successful call; if the dynamic
module load or the invocation of the loaded function raises, the exception
propagates and the file written by the branch remains on disk with the
generated code as its contents. -/
theorem execute_python_exception_leaves_tmp (env : Env) (self : AIDataFrame)
    (code : String) (fs : FS) (e : PyErr) :
    (env.loadAndCall code "pandas_query_function" self.pd_df = Except.error e →
      self.execute_python env code "query" fs
        = (Except.error e, { fs with tmpPy := Option.some code }))
    ∧ (env.loadAndCall code "pandas_plot_function" self.pd_df = Except.error e →
      self.execute_python env code "plot" fs
        = (Except.error e, { fs with tmpPy := Option.some code }))
    ∧ (env.loadAndCall code "pandas_manipulation_function" self.pd_df = Except.error e →
      self.execute_python env code "manipulation" fs
        = (Except.error e, { fs with tmpPy := Option.some code }))
    ∧ (env.loadAndCall code "pandas_clean_function" self.pd_df = Except.error e →
      self.execute_python env code "data_cleaning" fs
        = (Except.error e, { fs with tmpPy := Option.some code }))
    ∧ (env.loadAndCall code "pandas_clean_function" self.pd_df = Except.error e →
      self.execute_python env code "image_analysis" fs
        = (Except.error e, { fs with tmpPy := Option.some code })) := by
  refine ⟨fun h => ?_, fun h => ?_, fun h => ?_, fun h => ?_, fun h => ?_⟩ <;>
    simp [AIDataFrame.execute_python, h]

/-- Witness for C1: on a concrete failing oracle the `"query"` branch
propagates the exception and leaves `tmp.py` containing the code. -/
theorem execute_python_exception_leaves_tmp_witness :
    ai0.execute_python envFail "CODE" "query" fs0
      = (Except.error (PyErr.other "boom"), { fs0 with tmpPy := Option.some "CODE" }) :=
  (execute_python_exception_leaves_tmp envFail ai0 "CODE" fs0 (PyErr.other "boom")).1 rfl

/-- C2: for every `python_code` and every `type` tag outside
`{query, plot, manipulation, data_cleaning, image_analysis}`,
`AIDataFrame.execute_python` matches no branch, writes nothing to the
filesystem, and falls through returning Python `None` rather than raising. -/
theorem execute_python_unknown_type_falls_through (env : Env) (self : AIDataFrame)
    (code : String) (type : String) (fs : FS)
    (h1 : type ≠ "query") (h2 : type ≠ "plot") (h3 : type ≠ "manipulation")
    (h4 : type ≠ "data_cleaning") (h5 : type ≠ "image_analysis") :
    self.execute_python env code type fs = (Except.ok PyValue.noneV, fs) := by
  simp [AIDataFrame.execute_python, h1, h2, h3, h4, h5]

/-- Witness for C2: the unsupported tag `"summarize"` returns `None` and
leaves the filesystem unchanged. -/
theorem execute_python_unknown_type_falls_through_witness :
    ai0.execute_python envOk "CODE" "summarize" fs0 = (Except.ok PyValue.noneV, fs0) :=
  execute_python_unknown_type_falls_through envOk ai0 "CODE" "summarize" fs0
    (by decide) (by decide) (by decide) (by decide) (by decide)

/-- C6: `AIDataFrame.execute_python` dispatches on the task kind to a fixed
conventional function name — `pandas_query_function` for `"query"`,
`pandas_plot_function` for `"plot"`, `pandas_manipulation_function` for
`"manipulation"`, `pandas_clean_function` for `"data_cleaning"` — each
called with the in-memory dataframe `self.pd_df` as its sole argument; for
`"query"` the executor returns the value the function returned, and for
`"plot"` it returns the fixed string `"Your plot is stored in plot.png"`,
not the image. -/
theorem execute_python_dispatch (env : Env) (self : AIDataFrame)
    (code : String) (fs : FS) (v : PyValue) :
    (env.loadAndCall code "pandas_query_function" self.pd_df = Except.ok v →
      self.execute_python env code "query" fs
        = (Except.ok v, { fs with tmpPy := Option.none }))
    ∧ (env.loadAndCall code "pandas_plot_function" self.pd_df = Except.ok v →
      self.execute_python env code "plot" fs
        = (Except.ok (PyValue.str "Your plot is stored in plot.png"), { fs with tmpPy := Option.none }))
    ∧ (env.loadAndCall code "pandas_manipulation_function" self.pd_df = Except.ok v →
      self.execute_python env code "manipulation" fs
        = (Except.ok v, { fs with tmpPy := Option.none }))
    ∧ (env.loadAndCall code "pandas_clean_function" self.pd_df = Except.ok v →
      self.execute_python env code "data_cleaning" fs
        = (Except.ok v, { fs with tmpPy := Option.none })) := by
  refine ⟨fun h => ?_, fun h => ?_, fun h => ?_, fun h => ?_⟩ <;>
    simp [AIDataFrame.execute_python, h]

/-- Witness for C6: on a concrete succeeding oracle the `"plot"` branch
returns the fixed location string. -/
theorem execute_python_dispatch_witness :
    ai0.execute_python envOk "CODE" "plot" fs0
      = (Except.ok (PyValue.str "Your plot is stored in plot.png"), { fs0 with tmpPy := Option.none }) :=
  (execute_python_dispatch envOk ai0 "CODE" fs0 (PyValue.str "42")).2.1 rfl

/-- C7: for every `AIDataFrame` built by `__init__`, the `is_df_loaded`
flag is true exactly when the wrapped dataframe has at least one row, and
on an empty dataset the data-requiring properties `col_count`, `row_count`
and `sample_head_csv` all return Python `None` immediately instead of
computing anything. -/
theorem init_loaded_iff_nonempty (df : PyDataFrame) (description name : Option String) :
    ((AIDataFrame.init df description name).is_df_loaded = true ↔ 0 < df.rows.length)
    ∧ (df.rows.length = 0 →
        (AIDataFrame.init df description name).col_count = Option.none
        ∧ (AIDataFrame.init df description name).row_count = Option.none
        ∧ (AIDataFrame.init df description name).sample_head_csv = Option.none) := by
  constructor
  · simp [AIDataFrame.init]
  · intro h
    have hload : (AIDataFrame.init df description name).is_df_loaded = false := by
      simp [AIDataFrame.init, h]
    refine ⟨?_, ?_, ?_⟩ <;>
      simp [AIDataFrame.col_count, AIDataFrame.row_count, AIDataFrame.sample_head_csv, hload]

/-- Witness for C7: a loaded two-row frame and an empty frame. -/
theorem init_loaded_iff_nonempty_witness :
    (AIDataFrame.init dfEmpty Option.none Option.none).col_count = Option.none
    ∧ ai0.is_df_loaded = true :=
  ⟨((init_loaded_iff_nonempty dfEmpty Option.none Option.none).2 rfl).1,
    (init_loaded_iff_nonempty df0 Option.none Option.none).1.mpr (by decide)⟩

theorem raw_tpl_contains (head seg1 seg2 mid tail cnt cols csv q : String) :
    strContains (head ++ cnt ++ seg1 ++ cols ++ seg2 ++ csv ++ mid ++ q ++ tail) cnt = true
    ∧ strContains (head ++ cnt ++ seg1 ++ cols ++ seg2 ++ csv ++ mid ++ q ++ tail) cols = true
    ∧ strContains (head ++ cnt ++ seg1 ++ cols ++ seg2 ++ csv ++ mid ++ q ++ tail) csv = true
    ∧ strContains (head ++ cnt ++ seg1 ++ cols ++ seg2 ++ csv ++ mid ++ q ++ tail) q = true := by
  refine ⟨?_, ?_, ?_, ?_⟩
  · exact strContains_of_eq _ head cnt (seg1 ++ cols ++ seg2 ++ csv ++ mid ++ q ++ tail)
      (by simp only [strAppend_assoc])
  · exact strContains_of_eq _ (head ++ cnt ++ seg1) cols (seg2 ++ csv ++ mid ++ q ++ tail)
      (by simp only [strAppend_assoc])
  · exact strContains_of_eq _ (head ++ cnt ++ seg1 ++ cols ++ seg2) csv (mid ++ q ++ tail)
      (by simp only [strAppend_assoc])
  · exact strContains_of_eq _ (head ++ cnt ++ seg1 ++ cols ++ seg2 ++ csv ++ mid) q tail
      (by simp only [strAppend_assoc])

/-- C3: `AIDataFrame.query_dataframe` sends exactly the rendered query
prompt to the remote client; when the executor's call of
`pandas_query_function` on the dataframe succeeds, the returned string is
`"Question is {query} and Answer is {answer}"`, which contains both the
literal instruction and the computed answer; and for the dataset with
columns `[gear, name]` the rendered prompt contains the literal substrings
`"2 columns"` and `"['gear', 'name']"`. -/
theorem query_dataframe_end_to_end (env : Env) (self : AIDataFrame) (q : String) (fs : FS) :
    (self.query_dataframe env q fs).sent = [self.create_query_prompt q]
    ∧ (∀ code v, env.complete (self.create_query_prompt q) = Except.ok code →
        env.loadAndCall code "pandas_query_function" self.pd_df = Except.ok v →
        (self.query_dataframe env q fs).result
          = Except.ok ("Question is " ++ q ++ " and Answer is " ++ pyStr v))
    ∧ strContains (ai0.create_query_prompt "what is the mean of the gear column") "2 columns" = true
    ∧ strContains (ai0.create_query_prompt "what is the mean of the gear column") "['gear', 'name']" = true := by
  refine ⟨query_dataframe_sent_eq env self q fs, ?_, by decide, by decide⟩
  intro code v hc hl
  have hx : self.execute_python env code "query" fs
      = (Except.ok v, { fs with tmpPy := Option.none }) := by
    simp [AIDataFrame.execute_python, hl]
  simp [AIDataFrame.query_dataframe, hc, hx]

/-- Witness for C3: with a succeeding oracle the concrete query returns the
formatted question-and-answer string. -/
theorem query_dataframe_end_to_end_witness :
    (ai0.query_dataframe envOk "what is the mean of the gear column" fs0).result
      = Except.ok ("Question is " ++ "what is the mean of the gear column"
          ++ " and Answer is " ++ pyStr (PyValue.str "42")) :=
  (query_dataframe_end_to_end envOk ai0 "what is the mean of the gear column" fs0).2.1
    "CODE" (PyValue.str "42") rfl rfl

/-- C4: for each of the four supported task kinds, prompt construction is a
pure function of the dataset shape (`col_count`), the column names, the
two-row CSV sample and the instruction string: two builders applied to
wrappers agreeing on exactly those inputs produce byte-identical prompts,
whatever else (description, name, further rows) differs. -/
theorem prompt_builders_pure (a b : AIDataFrame) (q1 q2 : String)
    (hcount : a.col_count = b.col_count)
    (hcols : a.pd_df.columns = b.pd_df.columns)
    (hsample : a.pd_df.head2csv = b.pd_df.head2csv)
    (hq : q1 = q2) :
    a.create_query_prompt q1 = b.create_query_prompt q2
    ∧ a.create_plot_prompt q1 = b.create_plot_prompt q2
    ∧ a.create_manipulation_prompt q1 = b.create_manipulation_prompt q2
    ∧ a.create_data_cleaning_prompt q1 = b.create_data_cleaning_prompt q2 := by
  subst hq
  refine ⟨?_, ?_, ?_, ?_⟩ <;>
    simp [AIDataFrame.create_query_prompt, AIDataFrame.create_plot_prompt,
      AIDataFrame.create_manipulation_prompt, AIDataFrame.create_data_cleaning_prompt,
      AIDataFrame.raw_query_prompt, AIDataFrame.raw_plot_prompt,
      AIDataFrame.raw_manipulation_prompt, hcount, hcols, hsample]

/-- Witness for C4: wrappers differing only in description and name render
the same query prompt. -/
theorem prompt_builders_pure_witness :
    ai0.create_query_prompt "x"
      = (AIDataFrame.init df0 (Option.some "d") (Option.some "n")).create_query_prompt "x" :=
  (prompt_builders_pure ai0 (AIDataFrame.init df0 (Option.some "d") (Option.some "n"))
    "x" "x" rfl rfl rfl rfl).1

/-- Counterexample to C5 as stated: the instruction `"a  b"` (two
consecutive spaces) is NOT embedded verbatim in the rendered query prompt,
because `re.sub(' +', ' ', prompt)` collapses the run of spaces inside the
interpolated instruction as well. -/
theorem prompt_not_verbatim_cex :
    strContains (ai0.create_query_prompt "a  b") "a  b" = false := by decide

/-- C5 amended: every raw template rendering embeds exactly the column
count, the full column-name list, the two-row CSV sample and the
instruction, interpolated directly with no validation or escaping; for the
query, plot and manipulation kinds the returned prompt is that rendering
with every run of spaces collapsed to one space (so those prompts embed the
interpolated values only up to space-collapsing), while the cleaning
template applies no collapsing and embeds all four values verbatim. -/
theorem prompt_embeds_metadata_amended (self : AIDataFrame) (q : String) :
    (self.create_query_prompt q = collapseSpaces (self.raw_query_prompt q)
      ∧ strContains (self.raw_query_prompt q) (pyOptNat self.col_count) = true
      ∧ strContains (self.raw_query_prompt q) (pyListRepr self.pd_df.columns) = true
      ∧ strContains (self.raw_query_prompt q) self.pd_df.head2csv = true
      ∧ strContains (self.raw_query_prompt q) q = true)
    ∧ (self.create_plot_prompt q = collapseSpaces (self.raw_plot_prompt q)
      ∧ strContains (self.raw_plot_prompt q) (pyOptNat self.col_count) = true
      ∧ strContains (self.raw_plot_prompt q) (pyListRepr self.pd_df.columns) = true
      ∧ strContains (self.raw_plot_prompt q) self.pd_df.head2csv = true
      ∧ strContains (self.raw_plot_prompt q) q = true)
    ∧ (self.create_manipulation_prompt q = collapseSpaces (self.raw_manipulation_prompt q)
      ∧ strContains (self.raw_manipulation_prompt q) (pyOptNat self.col_count) = true
      ∧ strContains (self.raw_manipulation_prompt q) (pyListRepr self.pd_df.columns) = true
      ∧ strContains (self.raw_manipulation_prompt q) self.pd_df.head2csv = true
      ∧ strContains (self.raw_manipulation_prompt q) q = true)
    ∧ (strContains (self.create_data_cleaning_prompt q) (pyOptNat self.col_count) = true
      ∧ strContains (self.create_data_cleaning_prompt q) (pyListRepr self.pd_df.columns) = true
      ∧ strContains (self.create_data_cleaning_prompt q) self.pd_df.head2csv = true
      ∧ strContains (self.create_data_cleaning_prompt q) q = true) := by
  have hq := raw_tpl_contains tplHead tplColsSeg tplCsvSeg tplQueryMid tplQueryTail
    (pyOptNat self.col_count) (pyListRepr self.pd_df.columns) self.pd_df.head2csv q
  have hp := raw_tpl_contains tplHead tplColsSeg tplCsvSeg tplPlotMid tplPlotTail
    (pyOptNat self.col_count) (pyListRepr self.pd_df.columns) self.pd_df.head2csv q
  have hm := raw_tpl_contains tplHead tplColsSeg tplCsvSeg tplManipMid tplManipTail
    (pyOptNat self.col_count) (pyListRepr self.pd_df.columns) self.pd_df.head2csv q
  have hc := raw_tpl_contains tplHead tplColsSeg tplCsvSeg tplCleanMid tplCleanTail
    (pyOptNat self.col_count) (pyListRepr self.pd_df.columns) self.pd_df.head2csv q
  exact ⟨⟨rfl, hq.1, hq.2.1, hq.2.2.1, hq.2.2.2⟩,
    ⟨rfl, hp.1, hp.2.1, hp.2.2.1, hp.2.2.2⟩,
    ⟨rfl, hm.1, hm.2.1, hm.2.2.1, hm.2.2.2⟩,
    ⟨hc.1, hc.2.1, hc.2.2.1, hc.2.2.2⟩⟩

/-- Counterexample to C8 as stated: issuing the identical instruction twice
against the same wrapper sends two prompts to the remote completion client
(there is no response cache), refuting "invokes the remote client at most
once". -/
theorem query_dataframe_no_cache_cex :
    ¬ (((ai0.query_dataframe envOk "what is the mean of the gear column" fs0).sent
        ++ (ai0.query_dataframe envOk "what is the mean of the gear column"
            (ai0.query_dataframe envOk "what is the mean of the gear column" fs0).fs).sent).length ≤ 1)
    ∧ ((ai0.query_dataframe envOk "what is the mean of the gear column" fs0).sent
        ++ (ai0.query_dataframe envOk "what is the mean of the gear column"
            (ai0.query_dataframe envOk "what is the mean of the gear column" fs0).fs).sent).length = 2 := by
  constructor
  · decide
  · decide

/-- C8 amended: `AIDataFrame.query_dataframe` has no response cache — every
call, including a repeat of the very same instruction string against the
same wrapper, performs exactly one remote completion call, so two identical
successive calls invoke the remote client exactly twice; no cache or
cache-clearing operation exists in the code. -/
theorem query_dataframe_always_calls_remote (env : Env) (self : AIDataFrame)
    (q : String) (fs : FS) :
    (self.query_dataframe env q fs).sent.length = 1
    ∧ ((self.query_dataframe env q fs).sent
        ++ (self.query_dataframe env q (self.query_dataframe env q fs).fs).sent).length = 2 := by
  have h1 := query_dataframe_sent_eq env self q fs
  have h2 := query_dataframe_sent_eq env self q (self.query_dataframe env q fs).fs
  constructor
  · rw [h1]; rfl
  · rw [h1, h2]; rfl

/-- C9: no request-path operation (`query_dataframe`, `plot_dataframe`,
`manipulate_dataframe`, `clean_dataframe`) ever retries the remote
completion call or invokes the error-correction prompt: each sends exactly
its one primary prompt, on an executor failure the exception propagates
with no second remote call, and no output of
`ErrorCorrectionPrompt.get_prompt` ever appears among the sent prompts. -/
theorem request_path_no_retry_no_error_correction (env : Env) (self : AIDataFrame)
    (q : String) (fs : FS) (dfRepr uq err pc : String) :
    ((self.query_dataframe env q fs).sent = [self.create_query_prompt q]
      ∧ (∀ code e, env.complete (self.create_query_prompt q) = Except.ok code →
          env.loadAndCall code "pandas_query_function" self.pd_df = Except.error e →
          (self.query_dataframe env q fs).result = Except.error e)
      ∧ ErrorCorrectionPrompt.get_prompt dfRepr uq err pc ∉ (self.query_dataframe env q fs).sent)
    ∧ ((self.plot_dataframe env q fs).sent = [self.create_plot_prompt q]
      ∧ (∀ code e, env.complete (self.create_plot_prompt q) = Except.ok code →
          env.loadAndCall code "pandas_plot_function" self.pd_df = Except.error e →
          (self.plot_dataframe env q fs).result = Except.error e)
      ∧ ErrorCorrectionPrompt.get_prompt dfRepr uq err pc ∉ (self.plot_dataframe env q fs).sent)
    ∧ ((self.manipulate_dataframe env q fs).sent = [self.create_manipulation_prompt q]
      ∧ (∀ code e, env.complete (self.create_manipulation_prompt q) = Except.ok code →
          env.loadAndCall code "pandas_manipulation_function" self.pd_df = Except.error e →
          (self.manipulate_dataframe env q fs).result = Except.error e)
      ∧ ErrorCorrectionPrompt.get_prompt dfRepr uq err pc ∉ (self.manipulate_dataframe env q fs).sent)
    ∧ ((self.clean_dataframe env q fs).sent = [self.create_data_cleaning_prompt q]
      ∧ (∀ code e, env.complete (self.create_data_cleaning_prompt q) = Except.ok code →
          env.loadAndCall code "pandas_clean_function" self.pd_df = Except.error e →
          (self.clean_dataframe env q fs).result = Except.error e)
      ∧ ErrorCorrectionPrompt.get_prompt dfRepr uq err pc ∉ (self.clean_dataframe env q fs).sent) := by
  refine ⟨⟨query_dataframe_sent_eq env self q fs,
      fun code e hc hl => query_dataframe_err_prop env self q fs code e hc hl, ?_⟩,
    ⟨plot_dataframe_sent_eq env self q fs,
      fun code e hc hl => plot_dataframe_err_prop env self q fs code e hc hl, ?_⟩,
    ⟨manipulate_dataframe_sent_eq env self q fs,
      fun code e hc hl => manipulate_dataframe_err_prop env self q fs code e hc hl, ?_⟩,
    ⟨clean_dataframe_sent_eq env self q fs,
      fun code e hc hl => clean_dataframe_err_prop env self q fs code e hc hl, ?_⟩⟩
  · rw [query_dataframe_sent_eq]
    simp only [List.mem_singleton]
    exact ec_prompt_ne_of_head dfRepr uq err pc (query_prompt_head self q)
  · rw [plot_dataframe_sent_eq]
    simp only [List.mem_singleton]
    exact ec_prompt_ne_of_head dfRepr uq err pc (plot_prompt_head self q)
  · rw [manipulate_dataframe_sent_eq]
    simp only [List.mem_singleton]
    exact ec_prompt_ne_of_head dfRepr uq err pc (manipulation_prompt_head self q)
  · rw [clean_dataframe_sent_eq]
    simp only [List.mem_singleton]
    exact ec_prompt_ne_of_head dfRepr uq err pc (cleaning_prompt_head self q)

/-- Witness for C9: with a failing executor the query path propagates the
exception (and, by the theorem, sent exactly its one primary prompt). -/
theorem request_path_no_retry_no_error_correction_witness :
    (ai0.query_dataframe envFail "q" fs0).result = Except.error (PyErr.other "boom") :=
  (request_path_no_retry_no_error_correction envFail ai0 "q" fs0 "d" "u" "e" "c").1.2.1
    "CODE" (PyErr.other "boom") rfl rfl

/-- C10: for every input dataframe whose task-kind tag (first cell) is
`"plot"`, `ChatWithPandas.forward` raises `TypeError` before producing a
response and before any remote call: it calls
`smart_df.plot_dataframe(query, plot_type)` with two positional arguments
while `AIDataFrame.plot_dataframe` accepts only one besides `self`. -/
theorem forward_plot_raises_typeerror (env : Env) (df : PyDataFrame) (fs : FS)
    (q pt : String) (r : List String) (rest : List (List String))
    (hrows : df.rows = r :: rest)
    (h0 : r[0]? = Option.some "plot")
    (h1 : r[1]? = Option.some q)
    (h2 : r[2]? = Option.some pt) :
    ChatWithPandas.forward env df fs = (Except.error PyErr.typeError, fs, []) := by
  have hc1 : df.cell 0 1 = Option.some q := by simp [PyDataFrame.cell, hrows, h1]
  have hc0 : df.cell 0 0 = Option.some "plot" := by simp [PyDataFrame.cell, hrows, h0]
  have hc2 : df.cell 0 2 = Option.some pt := by simp [PyDataFrame.cell, hrows, h2]
  simp [ChatWithPandas.forward, hc0, hc1, hc2, pyCallPlotDataframe]

/-- Witness for C10: a concrete one-row plot request fails with `TypeError`
even though the oracle would have succeeded. -/
theorem forward_plot_raises_typeerror_witness :
    ChatWithPandas.forward envOk dfPlotReq fs0 = (Except.error PyErr.typeError, fs0, []) :=
  forward_plot_raises_typeerror envOk dfPlotReq fs0 "plot mpg vs hp" "bar"
    ["plot", "plot mpg vs hp", "bar"] [] rfl rfl rfl rfl
